import Mathlib

/-! Verification of the collage canvas interaction model of the
Collage-Gallery application. The definitions below are shallow embeddings
of the touch handlers and Firestore mutation helpers found in
src/photo-collage-app/src/components/CollageView.tsx and
src/photo-collage-app/src/components/CollagePhotoItem.tsx, together with
the toggleCollage creation logic of the gallery views (including the
all-albums branch in src/unnamed/part_004). JS numbers are modelled by
rationals, so all arithmetic is exact; JS Math.max and Math.min over an
empty spread are modelled by an explicit extended-number type. -/

/-- A 2D point in screen or canvas coordinates, modelled over the rationals. -/
structure Pt where
  x : ℚ
  y : ℚ
deriving DecidableEq, Repr

/-- The canvasTransform React state of CollageView, fields x, y, scale:
the pan offset in screen pixels and the zoom factor. -/
structure CanvasTransform where
  panX : ℚ
  panY : ℚ
  zoom : ℚ
deriving DecidableEq, Repr

/-- A view frame: the bounding rect origin of the canvas element, as
returned by getBoundingClientRect, plus the canvas transform. -/
structure ViewFrame where
  originX : ℚ
  originY : ℚ
  t : CanvasTransform
deriving DecidableEq, Repr

/-- Screen to canvas mapping as computed inline in handleItemMove
(CollageView.tsx lines 177-178): subtract the rect origin and the pan
offset, then divide by the zoom factor. -/
def toCanvasSpace (p : Pt) (v : ViewFrame) : Pt :=
  ⟨(p.x - v.originX - v.t.panX) / v.t.zoom,
   (p.y - v.originY - v.t.panY) / v.t.zoom⟩

/-- Canvas to screen mapping realised by the CSS transform
translate by (x, y) then scale with transform origin 0 0
(CollageView.tsx lines 280-288): multiply by zoom, then add the pan
offset and the view origin. -/
def toScreenSpace (c : Pt) (v : ViewFrame) : Pt :=
  ⟨v.originX + v.t.panX + c.x * v.t.zoom,
   v.originY + v.t.panY + c.y * v.t.zoom⟩

/-- Single finger item drag handler, the one-touch branch of
handleItemMove (CollageView.tsx lines 172-181, identical math in the
optimistic variant at CollagePhotoItem.tsx lines 1008-1026): the client
point is mapped to canvas space and the item position is set to that
point minus (128, 128), half of the 256 px image box. -/
def handleItemMoveDrag (client : Pt) (v : ViewFrame) : Pt :=
  ⟨(toCanvasSpace client v).x - 128, (toCanvasSpace client v).y - 128⟩

/-- Pinch scale application on an item, handleTouchMove
(CollagePhotoItem.tsx line 48) and the two-touch branch of handleItemMove
(CollageView.tsx line 189): the new scale is
max of 0.5 and (min of 3 and scale times scaleDelta). -/
def newScaleOfPinch (scale scaleDelta : ℚ) : ℚ :=
  max (1/2) (min 3 (scale * scaleDelta))

/-- The operations that change the canvas zoom across the CollageView
variants: the two-finger canvas pinch (the basic variant clamps to
the interval from 0.5 to 3, the optimistic variant to the interval from
0.1 to 3), the zoom buttons (factor 1.2), and reset. -/
inductive ZoomOp where
  | pinchBasic (r : ℚ)
  | pinchOpt (r : ℚ)
  | zoomIn
  | zoomOutBasic
  | zoomOutOpt
  | reset
deriving DecidableEq, Repr

/-- One update of the canvasTransform scale by a zoom operation
(handleCanvasMove two-touch branch, CollageView.tsx line 121 and
CollagePhotoItem.tsx line 926; zoom buttons, CollageView.tsx lines
249-267 and CollagePhotoItem.tsx lines 1267-1285). -/
def applyZoomOp (z : ℚ) : ZoomOp → ℚ
  | ZoomOp.pinchBasic r => max (1/2) (min 3 (z * r))
  | ZoomOp.pinchOpt r => max (1/10) (min 3 (z * r))
  | ZoomOp.zoomIn => min 3 (z * (6/5))
  | ZoomOp.zoomOutBasic => max (1/2) (z / (6/5))
  | ZoomOp.zoomOutOpt => max (1/10) (z / (6/5))
  | ZoomOp.reset => 1

/-- The canvas zoom after a sequence of operations, starting from the
initial canvasTransform scale of 1. -/
def runZoomOps (ops : List ZoomOp) : ℚ :=
  ops.foldl applyZoomOp 1

/-- JS number values reachable by Math.max and Math.min over a spread
list: a finite number, or one of the two infinities produced on the
empty list. -/
inductive JSNum where
  | negInf
  | num (q : ℚ)
  | posInf
deriving DecidableEq, Repr

/-- Math.max accumulator step. -/
def JSNum.max2 : JSNum → ℚ → JSNum
  | JSNum.negInf, q => JSNum.num q
  | JSNum.num a, q => JSNum.num (max a q)
  | JSNum.posInf, _ => JSNum.posInf

/-- Math.min accumulator step. -/
def JSNum.min2 : JSNum → ℚ → JSNum
  | JSNum.posInf, q => JSNum.num q
  | JSNum.num a, q => JSNum.num (min a q)
  | JSNum.negInf, _ => JSNum.negInf

/-- Math.max applied to a spread list; minus Infinity on the empty list. -/
def jsMaxAll (zs : List ℚ) : JSNum := zs.foldl JSNum.max2 JSNum.negInf

/-- Math.min applied to a spread list; plus Infinity on the empty list. -/
def jsMinAll (zs : List ℚ) : JSNum := zs.foldl JSNum.min2 JSNum.posInf

/-- Adding 1 to a JS number: the infinities absorb. -/
def JSNum.addOne : JSNum → JSNum
  | JSNum.negInf => JSNum.negInf
  | JSNum.num q => JSNum.num (q + 1)
  | JSNum.posInf => JSNum.posInf

/-- Subtracting 1 from a JS number: the infinities absorb. -/
def JSNum.subOne : JSNum → JSNum
  | JSNum.negInf => JSNum.negInf
  | JSNum.num q => JSNum.num (q - 1)
  | JSNum.posInf => JSNum.posInf

/-- bringForward (CollageView.tsx lines 229-232): computes maxZ as
Math.max over all item zIndex values and unconditionally issues
updateCollageItem with zIndex equal to maxZ + 1. The returned value is
the dispatched payload; the function always dispatches one. -/
def bringForward (zs : List ℚ) : Option JSNum :=
  some ((jsMaxAll zs).addOne)

/-- sendBackward (CollageView.tsx lines 234-237): dispatches zIndex equal
to minZ - 1, where minZ is Math.min over all item zIndex values. -/
def sendBackward (zs : List ℚ) : Option JSNum :=
  some ((jsMinAll zs).subOne)

/-- The value of Math.max over a non-empty zIndex list, used to state the
z-order properties; the empty case is arbitrary and unused there. -/
def maxOf : List ℚ → ℚ
  | [] => 0
  | a :: l => l.foldl max a

/-- The value of Math.min over a non-empty zIndex list. -/
def minOf : List ℚ → ℚ
  | [] => 0
  | a :: l => l.foldl min a

/-- Outcome of an item gesture session at release. -/
inductive SessionClass where
  | tapped
  | dragging
  | noop
deriving DecidableEq, Repr

/-- Summary of a single-contact item gesture session in the optimistic
CollageView: moved records whether any touch-move event was processed
during the session (handleItemMove sets the isDraggingItem flag
unconditionally once its guards pass), duration is the elapsed time in
milliseconds at release, dist the distance in pixels between the start
position and the release position. -/
structure ItemSession where
  moved : Bool
  duration : ℚ
  dist : ℚ
deriving DecidableEq, Repr

/-- Classification performed by handleItemEnd in the optimistic
CollageView (CollagePhotoItem.tsx lines 1058-1120): a session that
processed a move commits the drag; otherwise it is a tap when the
duration is under 500 ms and the movement under 50 px; otherwise it is a
discarded no-op. -/
def handleItemEndClass (s : ItemSession) : SessionClass :=
  if s.moved then SessionClass.dragging
  else if s.duration < 500 ∧ s.dist < 50 then SessionClass.tapped
  else SessionClass.noop

/-- Position, scale and rotation of a collage item. -/
structure ItemPose where
  x : ℚ
  y : ℚ
  scale : ℚ
  rotation : ℚ
deriving DecidableEq, Repr

/-- getItemPosition (CollagePhotoItem.tsx lines 1133-1141): each rendered
field prefers the localItemPositions entry for the item and falls back to
the store value from the snapshot. -/
def getItemPosition (localPos : Option ItemPose) (item : ItemPose) : ItemPose :=
  ⟨(localPos.map ItemPose.x).getD item.x,
   (localPos.map ItemPose.y).getD item.y,
   (localPos.map ItemPose.scale).getD item.scale,
   (localPos.map ItemPose.rotation).getD item.rotation⟩

/-- Drag-commit path of handleItemEnd in the optimistic CollageView
(CollagePhotoItem.tsx lines 1066-1081): when a move was processed and a
local override exists, the override value is dispatched through
updateCollageItem and the local entry is deleted at once. The result is
the dispatched payload paired with the remaining local override. -/
def handleItemEndDrag (localPos : Option ItemPose) (isDraggingItem : Bool) :
    Option ItemPose × Option ItemPose :=
  match isDraggingItem, localPos with
  | true, some p => (some p, none)
  | true, none => (none, none)
  | false, lp => (none, lp)

/-- Observable outcome of one updateCollageItem call: the error (if any)
propagated to the caller, whether console.error ran, and whether a
user-facing alert was raised. -/
structure MutationOutcome where
  propagated : Option String
  logged : Bool
  alerted : Bool
deriving DecidableEq, Repr

/-- updateCollageItem (CollageView.tsx lines 65-71; same shape in the
optimistic and all-albums variants, CollagePhotoItem.tsx lines 857-867):
the updateDoc call is awaited inside try and catch; a rejection, such as
an update against a concurrently deleted item, is written to
console.error and nothing is rethrown or alerted. The argument is the
result of the updateDoc call at the Sync Gateway boundary. -/
def updateCollageItem (res : Except String Unit) : MutationOutcome :=
  match res with
  | Except.ok _ => ⟨none, false, false⟩
  | Except.error _ => ⟨none, true, false⟩

/-- Fields of the Firestore document created when a photo is added to a
single-album collage (toggleCollage in the gallery view, CollageView.tsx
lines 797-822): rx and ry stand for the two Math.random draws and now
for the Date.now call. -/
structure CollageDoc where
  photoId : String
  x : ℚ
  y : ℚ
  rotation : ℚ
  scale : ℚ
  zIndex : ℚ
  mode : String
  captionText : String
deriving DecidableEq, Repr

/-- The document created by the single-album branch of toggleCollage. -/
def toggleCollageNewItem (photoId : String) (rx ry now : ℚ) : CollageDoc :=
  ⟨photoId, 50 + rx * 200, 50 + ry * 200, 0, 1, now, "polaroid", ""⟩

/-- The document created by the all-albums branch of toggleCollage
(src/unnamed/part_004 lines 195-206), written to the all-albums-collage
collection with the same field values. -/
def toggleCollageNewItemAllAlbums (photoId : String) (rx ry now : ℚ) : CollageDoc :=
  ⟨photoId, 50 + rx * 200, 50 + ry * 200, 0, 1, now, "polaroid", ""⟩

/-- Folding the Math.max step from a finite accumulator stays finite and
computes the list fold of max. -/
theorem foldl_max2_num (l : List ℚ) (a : ℚ) :
    l.foldl JSNum.max2 (JSNum.num a) = JSNum.num (l.foldl max a) := by
  induction l generalizing a with
  | nil => rfl
  | cons b t ih =>
    simp only [List.foldl_cons, JSNum.max2]
    exact ih (max a b)

/-- Folding the Math.min step from a finite accumulator stays finite and
computes the list fold of min. -/
theorem foldl_min2_num (l : List ℚ) (a : ℚ) :
    l.foldl JSNum.min2 (JSNum.num a) = JSNum.num (l.foldl min a) := by
  induction l generalizing a with
  | nil => rfl
  | cons b t ih =>
    simp only [List.foldl_cons, JSNum.min2]
    exact ih (min a b)

/-- The initial accumulator is below the fold of max. -/
theorem le_foldl_max (l : List ℚ) (a : ℚ) : a ≤ l.foldl max a := by
  induction l generalizing a with
  | nil => exact le_refl a
  | cons b t ih =>
    simp only [List.foldl_cons]
    exact le_trans (le_max_left a b) (ih (max a b))

/-- Every member of the list is below the fold of max. -/
theorem mem_le_foldl_max (l : List ℚ) (a q : ℚ) (hq : q ∈ l) :
    q ≤ l.foldl max a := by
  induction l generalizing a with
  | nil => cases hq
  | cons b t ih =>
    simp only [List.foldl_cons]
    rcases List.mem_cons.mp hq with h | h
    · rw [h]
      exact le_trans (le_max_right a b) (le_foldl_max t (max a b))
    · exact ih (max a b) h

/-- The fold of min is below the initial accumulator. -/
theorem foldl_min_le (l : List ℚ) (a : ℚ) : l.foldl min a ≤ a := by
  induction l generalizing a with
  | nil => exact le_refl a
  | cons b t ih =>
    simp only [List.foldl_cons]
    exact le_trans (ih (min a b)) (min_le_left a b)

/-- The fold of min is below every member of the list. -/
theorem foldl_min_le_mem (l : List ℚ) (a q : ℚ) (hq : q ∈ l) :
    l.foldl min a ≤ q := by
  induction l generalizing a with
  | nil => cases hq
  | cons b t ih =>
    simp only [List.foldl_cons]
    rcases List.mem_cons.mp hq with h | h
    · rw [h]
      exact le_trans (foldl_min_le t (min a b)) (min_le_right a b)
    · exact ih (min a b) h

/-- C1: for a view state with zoom in the interval from 0.1 to 3 and any
screen point, mapping the point to canvas space (subtract the view origin
and pan offset, then divide by zoom) and back to screen space (multiply
by zoom, then add pan offset and view origin) returns the point; over the
rationals the round trip is exact. -/
theorem c1_round_trip (p : Pt) (v : ViewFrame)
    (h1 : 1/10 ≤ v.t.zoom) (h2 : v.t.zoom ≤ 3) :
    toScreenSpace (toCanvasSpace p v) v = p := by
  have hz : v.t.zoom ≠ 0 := by
    intro h
    rw [h] at h1
    norm_num at h1
  cases p with
  | mk px py =>
    simp only [toScreenSpace, toCanvasSpace, Pt.mk.injEq]
    constructor <;> field_simp

/-- Witness for C1 at a concrete point and view state with zoom 2. -/
theorem c1_round_trip_witness :
    toScreenSpace (toCanvasSpace ⟨3, 4⟩ ⟨1, 2, ⟨5, 6, 2⟩⟩) ⟨1, 2, ⟨5, 6, 2⟩⟩ = ⟨3, 4⟩ :=
  c1_round_trip ⟨3, 4⟩ ⟨1, 2, ⟨5, 6, 2⟩⟩ (by norm_num : (1:ℚ)/10 ≤ 2) (by norm_num : (2:ℚ) ≤ 3)

/-- C2 counterexample: an item created at position (50, 50) (random draws
0, inside the documented bounds) whose drag pointer reaches canvas point
(150, 180) at zoom 1 and pan (0, 0) is moved to (22, 52), that is
(150 - 128, 180 - 128), not to the original position translated by the
pointer delta, which would be (100, 130). -/
theorem c2_counterexample :
    (toggleCollageNewItem "p" 0 0 7).x = 50 ∧
    (toggleCollageNewItem "p" 0 0 7).y = 50 ∧
    handleItemMoveDrag ⟨150, 180⟩ ⟨0, 0, ⟨0, 0, 1⟩⟩ = ⟨22, 52⟩ ∧
    (⟨22, 52⟩ : Pt) ≠ ⟨50 + 50, 50 + 80⟩ := by
  refine ⟨?_, ?_, ?_, ?_⟩
  · norm_num [toggleCollageNewItem]
  · norm_num [toggleCollageNewItem]
  · norm_num [handleItemMoveDrag, toCanvasSpace, Pt.mk.injEq]
  · intro hx
    rw [Pt.mk.injEq] at hx
    norm_num at hx

/-- C2 amended: a photo added to a collage yields an item with scale 1,
rotation 0 and position inside the square from 50 inclusive to 250
exclusive in each coordinate; a single finger drag at zoom 1, pan (0, 0)
and rect origin (0, 0) sets the item position to the pointer canvas point
minus (128, 128): the handler centres the 256 px image box under the
pointer, independent of the original position, instead of translating the
original position by the pointer delta. -/
theorem c2_add_then_drag (ph : String) (rx ry now : ℚ)
    (h1 : 0 ≤ rx) (h2 : rx < 1) (h3 : 0 ≤ ry) (h4 : ry < 1)
    (p : Pt) (v : ViewFrame) (hz : v.t.zoom = 1) (hpx : v.t.panX = 0)
    (hpy : v.t.panY = 0) (hox : v.originX = 0) (hoy : v.originY = 0) :
    (toggleCollageNewItem ph rx ry now).scale = 1 ∧
    (toggleCollageNewItem ph rx ry now).rotation = 0 ∧
    50 ≤ (toggleCollageNewItem ph rx ry now).x ∧
    (toggleCollageNewItem ph rx ry now).x < 250 ∧
    50 ≤ (toggleCollageNewItem ph rx ry now).y ∧
    (toggleCollageNewItem ph rx ry now).y < 250 ∧
    handleItemMoveDrag p v = ⟨p.x - 128, p.y - 128⟩ := by
  refine ⟨rfl, rfl, ?_, ?_, ?_, ?_, ?_⟩
  · show (50:ℚ) ≤ 50 + rx * 200
    linarith
  · show 50 + rx * 200 < (250:ℚ)
    linarith
  · show (50:ℚ) ≤ 50 + ry * 200
    linarith
  · show 50 + ry * 200 < (250:ℚ)
    linarith
  · simp [handleItemMoveDrag, toCanvasSpace, hz, hpx, hpy, hox, hoy]

/-- Witness for C2 amended at concrete random draws and a concrete drag. -/
theorem c2_add_then_drag_witness :
    (toggleCollageNewItem "p" (1/2) (1/2) 7).scale = 1 ∧
    (toggleCollageNewItem "p" (1/2) (1/2) 7).rotation = 0 ∧
    50 ≤ (toggleCollageNewItem "p" (1/2) (1/2) 7).x ∧
    (toggleCollageNewItem "p" (1/2) (1/2) 7).x < 250 ∧
    50 ≤ (toggleCollageNewItem "p" (1/2) (1/2) 7).y ∧
    (toggleCollageNewItem "p" (1/2) (1/2) 7).y < 250 ∧
    handleItemMoveDrag ⟨150, 180⟩ ⟨0, 0, ⟨0, 0, 1⟩⟩ = ⟨150 - 128, 180 - 128⟩ :=
  c2_add_then_drag "p" (1/2) (1/2) 7 (by norm_num) (by norm_num) (by norm_num)
    (by norm_num) ⟨150, 180⟩ ⟨0, 0, ⟨0, 0, 1⟩⟩ rfl rfl rfl rfl rfl

/-- C3 counterexample: a session that processed a move event, with total
movement 30 px (below the 50 px threshold) and duration 100 ms (below the
500 ms ceiling), classifies as dragging, not as tapped. -/
theorem c3_counterexample :
    handleItemEndClass ⟨true, 100, 30⟩ = SessionClass.dragging ∧
    handleItemEndClass ⟨true, 100, 30⟩ ≠ SessionClass.tapped ∧
    (100:ℚ) < 500 ∧ (30:ℚ) < 50 := by
  refine ⟨?_, ?_, ?_, ?_⟩
  · simp [handleItemEndClass]
  · simp [handleItemEndClass]
  · norm_num
  · norm_num

/-- C3 amended: a single-contact session classifies as Tapped when no
move event was processed, the duration is under 500 ms and the movement
under 50 px; any session that processed a move event classifies as
Dragging regardless of distance; no session classifies as both. -/
theorem c3_tap_drag (s : ItemSession) :
    (s.moved = false → s.duration < 500 → s.dist < 50 →
      handleItemEndClass s = SessionClass.tapped) ∧
    (s.moved = true → handleItemEndClass s = SessionClass.dragging) ∧
    ¬(handleItemEndClass s = SessionClass.tapped ∧
      handleItemEndClass s = SessionClass.dragging) := by
  refine ⟨?_, ?_, ?_⟩
  · intro hm hd hx
    simp [handleItemEndClass, hm, hd, hx]
  · intro hm
    simp [handleItemEndClass, hm]
  · rintro ⟨ha, hb⟩
    exact SessionClass.noConfusion (ha.symm.trans hb)

/-- Witness for C3 amended at two concrete sessions. -/
theorem c3_tap_drag_witness :
    handleItemEndClass ⟨false, 100, 30⟩ = SessionClass.tapped ∧
    handleItemEndClass ⟨true, 100, 30⟩ = SessionClass.dragging :=
  ⟨(c3_tap_drag ⟨false, 100, 30⟩).1 rfl (by norm_num : (100:ℚ) < 500)
      (by norm_num : (30:ℚ) < 50),
   (c3_tap_drag ⟨true, 100, 30⟩).2.1 rfl⟩

/-- C4: a pinch frame with scaleDelta 1 leaves an in-range item scale
unchanged, and any scaleDelta at all lands inside the interval from 0.5
to 3. -/
theorem c4_scale_clamp (s : ℚ) (h1 : 1/2 ≤ s) (h2 : s ≤ 3) :
    newScaleOfPinch s 1 = s ∧
    ∀ d : ℚ, 1/2 ≤ newScaleOfPinch s d ∧ newScaleOfPinch s d ≤ 3 := by
  constructor
  · unfold newScaleOfPinch
    rw [mul_one, min_eq_right h2, max_eq_right h1]
  · intro d
    exact ⟨le_max_left _ _, max_le (by norm_num) (min_le_left _ _)⟩

/-- Witness for C4 at scale 2 and the extreme scaleDelta 100. -/
theorem c4_scale_clamp_witness :
    newScaleOfPinch 2 1 = 2 ∧
    1/2 ≤ newScaleOfPinch 2 100 ∧ newScaleOfPinch 2 100 ≤ 3 :=
  ⟨(c4_scale_clamp 2 (by norm_num) (by norm_num)).1,
   ((c4_scale_clamp 2 (by norm_num) (by norm_num)).2 100).1,
   ((c4_scale_clamp 2 (by norm_num) (by norm_num)).2 100).2⟩

/-- C5 counterexample: with a local override (22, 52, 1, 0) and store
value (50, 50, 1, 0), ending the drag deletes the override immediately,
so rendering reverts to the store value before any gateway snapshot; the
claim predicted the override would persist until the echo arrives. -/
theorem c5_counterexample :
    (handleItemEndDrag (some ⟨22, 52, 1, 0⟩) true).2 = none ∧
    getItemPosition (handleItemEndDrag (some ⟨22, 52, 1, 0⟩) true).2 ⟨50, 50, 1, 0⟩
      = ⟨50, 50, 1, 0⟩ ∧
    (⟨50, 50, 1, 0⟩ : ItemPose) ≠ ⟨22, 52, 1, 0⟩ := by
  refine ⟨rfl, rfl, ?_⟩
  intro hx
  rw [ItemPose.mk.injEq] at hx
  norm_num at hx

/-- C5 amended: while a local override exists rendering prefers it over
the store value; on gesture end the override value is dispatched to the
gateway and the local override is deleted at once, so rendering reverts
to the authoritative store value immediately, not upon the next gateway
snapshot that echoes the committed write. -/
theorem c5_override (p item : ItemPose) (localPos : Option ItemPose)
    (h : localPos = some p) :
    getItemPosition localPos item = p ∧
    (handleItemEndDrag localPos true).1 = some p ∧
    (handleItemEndDrag localPos true).2 = none ∧
    getItemPosition (handleItemEndDrag localPos true).2 item = item := by
  subst h
  exact ⟨rfl, rfl, rfl, rfl⟩

/-- Witness for C5 amended at a concrete override and store value. -/
theorem c5_override_witness :
    getItemPosition (some ⟨22, 52, 1, 0⟩) ⟨50, 50, 1, 0⟩ = ⟨22, 52, 1, 0⟩ ∧
    (handleItemEndDrag (some ⟨22, 52, 1, 0⟩) true).1 = some ⟨22, 52, 1, 0⟩ ∧
    (handleItemEndDrag (some ⟨22, 52, 1, 0⟩) true).2 = none ∧
    getItemPosition (handleItemEndDrag (some ⟨22, 52, 1, 0⟩) true).2 ⟨50, 50, 1, 0⟩
      = ⟨50, 50, 1, 0⟩ :=
  c5_override ⟨22, 52, 1, 0⟩ ⟨50, 50, 1, 0⟩ (some ⟨22, 52, 1, 0⟩) rfl

/-- Every single zoom operation maps a zoom inside the interval from 0.1
to 3 back into that interval. -/
theorem applyZoomOp_bounds (z : ℚ) (h1 : 1/10 ≤ z) (h2 : z ≤ 3) (op : ZoomOp) :
    1/10 ≤ applyZoomOp z op ∧ applyZoomOp z op ≤ 3 := by
  cases op with
  | pinchBasic r =>
    simp only [applyZoomOp]
    exact ⟨le_trans (by norm_num) (le_max_left _ _),
      max_le (by norm_num) (min_le_left _ _)⟩
  | pinchOpt r =>
    simp only [applyZoomOp]
    exact ⟨le_max_left _ _, max_le (by norm_num) (min_le_left _ _)⟩
  | zoomIn =>
    simp only [applyZoomOp]
    constructor
    · exact le_min (by norm_num) (by linarith)
    · exact min_le_left _ _
  | zoomOutBasic =>
    simp only [applyZoomOp]
    constructor
    · exact le_trans (by norm_num) (le_max_left _ _)
    · refine max_le (by norm_num) ?_
      rw [div_le_iff₀ (by norm_num : (0:ℚ) < 6/5)]
      linarith
  | zoomOutOpt =>
    simp only [applyZoomOp]
    constructor
    · exact le_max_left _ _
    · refine max_le (by norm_num) ?_
      rw [div_le_iff₀ (by norm_num : (0:ℚ) < 6/5)]
      linarith
  | reset =>
    simp only [applyZoomOp]
    norm_num

/-- Folding any sequence of zoom operations preserves the zoom bounds. -/
theorem foldl_zoom_bounds (ops : List ZoomOp) (z : ℚ)
    (h1 : 1/10 ≤ z) (h2 : z ≤ 3) :
    1/10 ≤ ops.foldl applyZoomOp z ∧ ops.foldl applyZoomOp z ≤ 3 := by
  induction ops generalizing z with
  | nil => exact ⟨h1, h2⟩
  | cons op t ih =>
    simp only [List.foldl_cons]
    obtain ⟨a, b⟩ := applyZoomOp_bounds z h1 h2 op
    exact ih (applyZoomOp z op) a b

/-- C6: starting from zoom 1, every sequence of zoom operations (canvas
pinch in either variant, the zoom buttons, reset) keeps the canvas zoom
inside the interval from 0.1 to 3. -/
theorem c6_zoom_invariant (ops : List ZoomOp) :
    1/10 ≤ runZoomOps ops ∧ runZoomOps ops ≤ 3 :=
  foldl_zoom_bounds ops 1 (by norm_num) (by norm_num)

/-- C7: on a non-empty item list, bringForward dispatches zIndex equal to
maxZ + 1, strictly greater than every zIndex present at call time, and
sendBackward dispatches minZ - 1, strictly smaller than every zIndex
present at call time. -/
theorem c7_zorder (zs : List ℚ) (h : zs ≠ []) :
    bringForward zs = some (JSNum.num (maxOf zs + 1)) ∧
    sendBackward zs = some (JSNum.num (minOf zs - 1)) ∧
    ∀ q ∈ zs, q < maxOf zs + 1 ∧ minOf zs - 1 < q := by
  cases zs with
  | nil => exact absurd rfl h
  | cons a l =>
    have hmax : jsMaxAll (a :: l) = JSNum.num (l.foldl max a) := by
      simp only [jsMaxAll, List.foldl_cons, JSNum.max2]
      exact foldl_max2_num l a
    have hmin : jsMinAll (a :: l) = JSNum.num (l.foldl min a) := by
      simp only [jsMinAll, List.foldl_cons, JSNum.min2]
      exact foldl_min2_num l a
    refine ⟨?_, ?_, ?_⟩
    · simp [bringForward, hmax, JSNum.addOne, maxOf]
    · simp [sendBackward, hmin, JSNum.subOne, minOf]
    · intro q hq
      have hle : q ≤ l.foldl max a := by
        rcases List.mem_cons.mp hq with hx | hx
        · rw [hx]
          exact le_foldl_max l a
        · exact mem_le_foldl_max l a q hx
      have hge : l.foldl min a ≤ q := by
        rcases List.mem_cons.mp hq with hx | hx
        · rw [hx]
          exact foldl_min_le l a
        · exact foldl_min_le_mem l a q hx
      constructor
      · simp only [maxOf]
        linarith
      · simp only [minOf]
        linarith

/-- Witness for C7 at the concrete one-item zIndex list holding 5. -/
theorem c7_zorder_witness :
    bringForward [(5:ℚ)] = some (JSNum.num 6) ∧
    sendBackward [(5:ℚ)] = some (JSNum.num 4) := by
  obtain ⟨hb, hs, -⟩ := c7_zorder [(5:ℚ)] (by simp)
  constructor
  · rw [hb]
    norm_num [maxOf]
  · rw [hs]
    norm_num [minOf]

/-- C8 counterexample: on the empty item list the dispatched payloads are
the infinities, so neither the branch assigning 1 and -1 nor the no-op
branch of the claim holds. -/
theorem c8_counterexample :
    ¬(bringForward [] = none ∨ bringForward [] = some (JSNum.num 1)) ∧
    ¬(sendBackward [] = none ∨ sendBackward [] = some (JSNum.num (-1))) := by
  decide

/-- C8 amended: bringForward and sendBackward on an empty item list do
not crash; each unconditionally dispatches an update whose zIndex is the
JS Math.max or Math.min of an empty argument list shifted by one: minus
Infinity for bringForward and plus Infinity for sendBackward, rather than
1 and -1 or a skipped operation. -/
theorem c8_empty_scene :
    bringForward [] = some JSNum.negInf ∧ sendBackward [] = some JSNum.posInf := by
  decide

/-- C9: every updateCollageItem failure at the Sync Gateway, including an
update against a concurrently deleted item, is swallowed: no error
propagates to the gesture handler, no user-facing alert is raised, and a
rejection is logged to the console. -/
theorem c9_silent_failure (res : Except String Unit) :
    (updateCollageItem res).propagated = none ∧
    (updateCollageItem res).alerted = false ∧
    (∀ e : String, res = Except.error e → (updateCollageItem res).logged = true) := by
  cases res with
  | ok u => exact ⟨rfl, rfl, fun e h => Except.noConfusion h⟩
  | error e => exact ⟨rfl, rfl, fun _ _ => rfl⟩

/-- Witness for C9 at a concrete rejected update. -/
theorem c9_silent_failure_witness :
    (updateCollageItem (Except.error "item deleted")).propagated = none ∧
    (updateCollageItem (Except.error "item deleted")).alerted = false ∧
    (updateCollageItem (Except.error "item deleted")).logged = true := by
  obtain ⟨h1, h2, h3⟩ := c9_silent_failure (Except.error "item deleted")
  exact ⟨h1, h2, h3 "item deleted" rfl⟩

/-- C10: both the single-album and the all-albums branches of
toggleCollage create the collage item with display mode polaroid, empty
caption text, scale 1, rotation 0 and position inside the documented
random bounds. -/
theorem c10_new_item (ph : String) (rx ry now : ℚ)
    (h1 : 0 ≤ rx) (h2 : rx < 1) (h3 : 0 ≤ ry) (h4 : ry < 1) :
    (toggleCollageNewItem ph rx ry now).mode = "polaroid" ∧
    (toggleCollageNewItem ph rx ry now).captionText = "" ∧
    (toggleCollageNewItem ph rx ry now).scale = 1 ∧
    (toggleCollageNewItem ph rx ry now).rotation = 0 ∧
    50 ≤ (toggleCollageNewItem ph rx ry now).x ∧
    (toggleCollageNewItem ph rx ry now).x < 250 ∧
    50 ≤ (toggleCollageNewItem ph rx ry now).y ∧
    (toggleCollageNewItem ph rx ry now).y < 250 ∧
    toggleCollageNewItemAllAlbums ph rx ry now = toggleCollageNewItem ph rx ry now := by
  refine ⟨rfl, rfl, rfl, rfl, ?_, ?_, ?_, ?_, rfl⟩
  · show (50:ℚ) ≤ 50 + rx * 200
    linarith
  · show 50 + rx * 200 < (250:ℚ)
    linarith
  · show (50:ℚ) ≤ 50 + ry * 200
    linarith
  · show 50 + ry * 200 < (250:ℚ)
    linarith

/-- Witness for C10 at concrete random draws. -/
theorem c10_new_item_witness :
    (toggleCollageNewItem "p" (1/2) (1/2) 7).mode = "polaroid" ∧
    (toggleCollageNewItem "p" (1/2) (1/2) 7).captionText = "" ∧
    (toggleCollageNewItem "p" (1/2) (1/2) 7).scale = 1 ∧
    (toggleCollageNewItem "p" (1/2) (1/2) 7).rotation = 0 ∧
    50 ≤ (toggleCollageNewItem "p" (1/2) (1/2) 7).x ∧
    (toggleCollageNewItem "p" (1/2) (1/2) 7).x < 250 ∧
    50 ≤ (toggleCollageNewItem "p" (1/2) (1/2) 7).y ∧
    (toggleCollageNewItem "p" (1/2) (1/2) 7).y < 250 ∧
    toggleCollageNewItemAllAlbums "p" (1/2) (1/2) 7 = toggleCollageNewItem "p" (1/2) (1/2) 7 :=
  c10_new_item "p" (1/2) (1/2) 7 (by norm_num) (by norm_num) (by norm_num) (by norm_num)
